import Mathlib

/-!
Verification development for the rabbit.go tunnel broker.

This file gives a shallow embedding, in Lean 4, of the broker's
connection-brokering core: the persisted rows the core reads and writes
(teams, tokens, port assignments, connection sessions, connection logs),
the repository and service operations over them
(server/internal/database/repository.go and the database service layer),
and the server-side operations on tunnels
(server/internal/server/server.go): the control-connection framing, the
authentication step, the data-connection pairing table, the per-external-
connection handler, the bidirectional bridge commit, agent replacement on
an existing tunnel, and the startup restoration procedure.

Modelling conventions:
 - uuid values are modelled as Nat; uuid.Nil is modelled as the value
   `none` of an `Option Nat` wherever the code compares against uuid.Nil.
 - timestamps (time.Time) and durations (time.Duration) are Int
   nanoseconds, matching Go where time.Minute = 60000000000.
 - SQL UPDATE statements become List.map over the affected table;
   SQL SELECT ... WHERE becomes List.find? / List.filter.
 - network sockets and listeners are opaque Nat handles; closing a socket
   is recorded in an explicit list of closed handles.
 - goroutine interleavings that the claims depend on are sequentialized
   with explicit parameters (documented at each definition).
-/

namespace RabbitGo

/-- Row of the public."Team" table, restricted to the columns the core
reads: id and the deleted flag (the SQL joins use "deleted = false"). -/
structure TeamRow where
  id : String
  deleted : Bool
  deriving DecidableEq

/-- Row of team_tokens (database.TeamToken), restricted to the columns the
core reads and writes. -/
structure TokenRow where
  id : Nat
  teamId : String
  token : String
  isActive : Bool
  expiresAt : Option Int
  lastUsedAt : Option Int
  deriving DecidableEq

/-- Row of port_assignments (database.PortAssignment). -/
structure PortRow where
  id : Nat
  teamId : String
  tokenId : Nat
  port : Nat
  protocol : String
  deriving DecidableEq

/-- Row of connection_sessions (database.ConnectionSession). -/
structure SessionRow where
  id : Nat
  teamId : String
  tokenId : Nat
  portAssignId : Nat
  clientIP : String
  serverPort : Nat
  protocol : String
  startedAt : Int
  lastSeenAt : Int
  status : String
  deriving DecidableEq

/-- Row of connection_logs (database.ConnectionLog), restricted to the
columns the core reads and writes. -/
structure LogRow where
  id : Nat
  sessionId : Nat
  clientIP : String
  clientPort : Nat
  serverPort : Nat
  startedAt : Int
  endedAt : Option Int
  bytesReceived : Int
  bytesSent : Int
  status : String
  errorMessage : Option String
  deriving DecidableEq

/-- The relational store as the core sees it. -/
structure DB where
  teams : List TeamRow
  tokens : List TokenRow
  ports : List PortRow
  sessions : List SessionRow
  logs : List LogRow
  deriving DecidableEq

/-! Repository operations (repository.go). -/

/-- The WHERE clause of Repository.GetTeamTokenByToken, minus the token
match itself: t.is_active = true AND (t.expires_at IS NULL OR
t.expires_at > NOW()) AND JOIN "Team" ... "Team".deleted = false. -/
def tokenLive (db : DB) (now : Int) (t : TokenRow) : Bool :=
  t.isActive
    && (match t.expiresAt with
        | none => true
        | some e => decide (now < e))
    && db.teams.any (fun tm => tm.id == t.teamId && !tm.deleted)

/-- Repository.GetTeamTokenByToken: active, non-expired token by secret,
joined against a non-deleted team; sql.ErrNoRows becomes `none`. -/
def GetTeamTokenByToken (db : DB) (token : String) (now : Int) : Option TokenRow :=
  db.tokens.find? (fun t => t.token == token && tokenLive db now t)

/-- Repository.UpdateTokenLastUsed: UPDATE team_tokens SET last_used_at =
NOW() WHERE id = $1. -/
def UpdateTokenLastUsed (db : DB) (tokenId : Nat) (now : Int) : DB :=
  { db with tokens := db.tokens.map (fun t =>
      if t.id == tokenId then { t with lastUsedAt := some now } else t) }

/-- Repository.GetPortAssignmentByToken: port_assignments row for a token,
joined against a non-deleted team and the token row itself. -/
def GetPortAssignmentByToken (db : DB) (tokenId : Nat) : Option PortRow :=
  db.ports.find? (fun p =>
    p.tokenId == tokenId
      && db.teams.any (fun tm => tm.id == p.teamId && !tm.deleted)
      && db.tokens.any (fun tk => tk.id == p.tokenId))

/-- Repository.EndConnectionSession: UPDATE connection_sessions SET
status = 'inactive', last_seen_at = NOW() WHERE id = $1. Note the status
written is the literal 'inactive', whatever the caller wanted recorded. -/
def EndConnectionSession (db : DB) (sessionId : Nat) (now : Int) : DB :=
  { db with sessions := db.sessions.map (fun s =>
      if s.id == sessionId then { s with status := "inactive", lastSeenAt := now } else s) }

/-- Repository.UpdateSessionLastSeen: UPDATE connection_sessions SET
last_seen_at = NOW() WHERE id = $1. -/
def UpdateSessionLastSeen (db : DB) (sessionId : Nat) (now : Int) : DB :=
  { db with sessions := db.sessions.map (fun s =>
      if s.id == sessionId then { s with lastSeenAt := now } else s) }

/-- Repository.UpdateConnectionLogStats: UPDATE connection_logs SET
bytes_received = bytes_received + $2, bytes_sent = bytes_sent + $3
WHERE id = $1. -/
def UpdateConnectionLogStats (db : DB) (logId : Nat) (bytesReceived bytesSent : Int) : DB :=
  { db with logs := db.logs.map (fun l =>
      if l.id == logId then
        { l with bytesReceived := l.bytesReceived + bytesReceived,
                 bytesSent := l.bytesSent + bytesSent }
      else l) }

/-- Repository.EndConnectionLog: UPDATE connection_logs SET ended_at =
NOW(), status = $2, error_message = $3 WHERE id = $1. -/
def EndConnectionLog (db : DB) (logId : Nat) (status : String)
    (errorMessage : Option String) (now : Int) : DB :=
  { db with logs := db.logs.map (fun l =>
      if l.id == logId then
        { l with endedAt := some now, status := status, errorMessage := errorMessage }
      else l) }

/-- The WHERE clause of Repository.MarkStaleSessionsInactive:
status = 'active' AND last_seen_at < NOW() - threshold. -/
def staleSession (threshold now : Int) (s : SessionRow) : Bool :=
  s.status == "active" && decide (s.lastSeenAt < now - threshold)

/-- Repository.MarkStaleSessionsInactive: UPDATE connection_sessions SET
status = 'inactive', last_seen_at = NOW() WHERE status = 'active' AND
last_seen_at < $1 (with $1 = NOW() - threshold); returns RowsAffected. -/
def MarkStaleSessionsInactive (db : DB) (threshold now : Int) : DB × Nat :=
  ({ db with sessions := db.sessions.map (fun s =>
      if staleSession threshold now s then
        { s with status := "inactive", lastSeenAt := now }
      else s) },
   db.sessions.countP (fun s => staleSession threshold now s))

/-- Repository.GetActiveSessions: SELECT ... WHERE status = 'active'. -/
def GetActiveSessions (db : DB) : List SessionRow :=
  db.sessions.filter (fun s => s.status == "active")

/-- Repository.GetSessionWithDetails: the session joined with its token
row and its port-assignment row; any missing join partner is an error,
modelled as `none`. -/
def GetSessionWithDetails (db : DB) (sessionId : Nat) :
    Option (SessionRow × TokenRow × PortRow) :=
  match db.sessions.find? (fun s => s.id == sessionId) with
  | none => none
  | some s =>
    match db.tokens.find? (fun t => t.id == s.tokenId),
          db.ports.find? (fun p => p.id == s.portAssignId) with
    | some tk, some pa => some (s, tk, pa)
    | _, _ => none

/-! Service operations (the database service layer). -/

/-- Service.AuthenticateToken: look the token up; on success update
last-used (non-fatally) and fetch the port assignment. Returns the
outcome together with the store as left behind: note that when the token
row is found but the port-assignment lookup fails, the last-used update
has already been written even though authentication fails. -/
def ServiceAuthenticateToken (db : DB) (token : String) (now : Int) :
    Option (TokenRow × PortRow) × DB :=
  match GetTeamTokenByToken db token now with
  | none => (none, db)
  | some tk =>
    let db1 := UpdateTokenLastUsed db tk.id now
    match GetPortAssignmentByToken db1 tk.id with
    | none => (none, db1)
    | some pa => (some (tk, pa), db1)

/-- Service.EndConnection: always ends the SESSION (via
Repository.EndConnectionSession, which writes status 'inactive'); the
status and error-message arguments reach only the connection LOG, and
only when the log id is not uuid.Nil (modelled as `some`). -/
def ServiceEndConnection (db : DB) (sessionId : Nat) (logId : Option Nat)
    (status : String) (errorMessage : Option String) (now : Int) : DB :=
  let db1 := EndConnectionSession db sessionId now
  match logId with
  | none => db1
  | some lid => EndConnectionLog db1 lid status errorMessage now

/-- Service.UpdateConnectionActivity: bump the session's last-seen, then
accumulate the byte counters on the log when the log id is not uuid.Nil. -/
def ServiceUpdateConnectionActivity (db : DB) (sessionId : Nat) (logId : Option Nat)
    (bytesReceived bytesSent : Int) (now : Int) : DB :=
  let db1 := UpdateSessionLastSeen db sessionId now
  match logId with
  | none => db1
  | some lid => UpdateConnectionLogStats db1 lid bytesReceived bytesSent

/-- Service.CleanupStaleConnections simply forwards to
Repository.MarkStaleSessionsInactive. -/
def ServiceCleanupStaleConnections (db : DB) (threshold now : Int) : DB × Nat :=
  MarkStaleSessionsInactive db threshold now

/-! The in-memory Tunnel (server.go). -/

/-- An accept loop running against a Tunnel's public listener. A tunnel
built by createTunnel or re-armed by handleTunnel runs acceptConnections
(normalAccept); a tunnel built by createRestoredTunnelListener runs
acceptRestoredConnections (restoredAccept). -/
inductive AcceptLoop
  | restoredAccept
  | normalAccept
  deriving DecidableEq

/-- The server.Tunnel struct, restricted to the fields the embedded
operations read or write (BindAddress and CreatedAt are never consumed by
them). `client` is the agent control socket (nil for restored tunnels),
`listener` the public listener handle; `loops` records which accept
loops have been started on the listener and not stopped; `stopChanClosed`
models whether close(stopChan) has run. -/
structure TunnelState where
  id : String
  token : String
  teamId : String
  tokenId : Nat
  portAssignId : Nat
  localPort : String
  remotePort : String
  client : Option Nat
  listener : Nat
  sessionId : Option Nat
  connectionLog : Option Nat
  stopChanClosed : Bool
  loops : List AcceptLoop
  deriving DecidableEq

/-- Server.findTunnelByTokenAndPort: any tunnel (restored or active) with
this token whose RemotePort equals strconv.Itoa(port). Go iterates a map
in unspecified order; the model scans the list in order, one admissible
order. -/
def findTunnelByTokenAndPort (tunnels : List TunnelState) (token : String) (port : Nat) :
    Option TunnelState :=
  tunnels.find? (fun t => t.token == token && t.remotePort == toString port)

/-- Result of Server.reconnectClientToTunnel: the updated tunnel, the
sockets and listeners the call closed, the line written on the new agent
socket, and the store as left behind. -/
structure ReconnectResult where
  tunnel : TunnelState
  closedSockets : List Nat
  closedListeners : List Nat
  response : String
  db : DB

/-- Server.reconnectClientToTunnel: close the old agent socket when one
is present (the stop channel is deliberately NOT closed), install the new
socket and reported local port, write SUCCESS, reactivate the session in
the store (ReactivateRestoredTunnel = UpdateSessionLastSeen) when the
tunnel carries a session id, and run handleTunnel, which starts one more
acceptConnections loop on the listener. No listener is closed or bound. -/
def reconnectClientToTunnel (t : TunnelState) (db : DB) (conn : Nat)
    (localPort : String) (now : Int) : ReconnectResult :=
  let closed := match t.client with
    | some old => [old]
    | none => []
  let t1 := { t with client := some conn, localPort := localPort,
                     loops := t.loops ++ [AcceptLoop.normalAccept] }
  let db1 := match t.sessionId with
    | some sid => UpdateSessionLastSeen db sid now
    | none => db
  { tunnel := t1, closedSockets := closed, closedListeners := [],
    response := "SUCCESS:" ++ t.id ++ ":" ++ t.remotePort ++ "\n", db := db1 }

/-- What one accepted external connection receives, depending on which
accept loop took it off the listener. acceptRestoredConnections always
answers with sendRestoredPortMessage, the canned HTTP/1.1 503 text naming
the tunnel's RemotePort, without consulting t.Client; acceptConnections
hands the socket to Tunnel.handleConnection (the pairing path). -/
inductive ExternalResponse
  | restoredPortMessage (remotePort : String)
  | attachedPath
  deriving DecidableEq

/-- Per-connection behavior of each accept loop (the loop bodies of
acceptRestoredConnections and acceptConnections). -/
def acceptLoopHandle : AcceptLoop → TunnelState → ExternalResponse
  | AcceptLoop.restoredAccept, t => ExternalResponse.restoredPortMessage t.remotePort
  | AcceptLoop.normalAccept, _ => ExternalResponse.attachedPath

/-- Server.createRestoredTunnelListener, after a successful bind: the
restored tunnel starts with no agent socket, LocalPort "restored", and
the acceptRestoredConnections loop on the fresh listener. -/
def createRestoredTunnelListener (session : SessionRow) (tk : TokenRow) (pa : PortRow)
    (tunnelId : String) (listener : Nat) : TunnelState :=
  { id := tunnelId, token := tk.token, teamId := tk.teamId, tokenId := tk.id,
    portAssignId := pa.id, localPort := "restored", remotePort := toString pa.port,
    client := none, listener := listener, sessionId := some session.id,
    connectionLog := none, stopChanClosed := false,
    loops := [AcceptLoop.restoredAccept] }

/-! The pairing table and data-connection delivery (server.go). -/

/-- The one-slot buffered channel make(chan net.Conn, 1) behind a pairing
entry: either its buffer is empty or it holds one delivered socket. -/
inductive SlotState
  | empty
  | full (sock : Nat)
  deriving DecidableEq

/-- Lookup in the pendingConns map, modelled as an association list. -/
def lookupPending : List (String × SlotState) → String → Option SlotState
  | [], _ => none
  | e :: rest, id => if e.1 == id then some e.2 else lookupPending rest id

/-- A successful non-blocking send into the slot of the given id: the
one-slot buffer of that entry becomes full. -/
def fillPending : List (String × SlotState) → String → Nat → List (String × SlotState)
  | [], _, _ => []
  | e :: rest, id, sock =>
    if e.1 == id then (e.1, SlotState.full sock) :: fillPending rest id sock
    else e :: fillPending rest id sock

/-- delete(s.pendingConns, connID). -/
def removePending (p : List (String × SlotState)) (id : String) :
    List (String × SlotState) :=
  p.filter (fun e => !(e.1 == id))

/-- Outcome of Server.handleDataConnection for the inbound socket: either
it is handed over through the pairing table, or the handler closes it
(malformed DATA line, no pending entry for the id, or the select-default
branch because the one-slot buffer is already occupied). -/
inductive DeliverResult
  | paired (connId : String)
  | closedBadFormat
  | closedNoSlot (connId : String)
  | closedSlotFull (connId : String)
  deriving DecidableEq

/-- Whether handleDataConnection closed the inbound socket. -/
def socketClosedByDeliver : DeliverResult → Bool
  | DeliverResult.paired _ => false
  | DeliverResult.closedBadFormat => true
  | DeliverResult.closedNoSlot _ => true
  | DeliverResult.closedSlotFull _ => true

/-- strings.Split on the colon separator, over a byte list: "a:b:c"
becomes ["a", "b", "c"], and a list with no colon becomes a singleton. -/
def splitOnColon : List Char → List (List Char)
  | [] => [[]]
  | c :: rest =>
    if c == ':' then [] :: splitOnColon rest
    else
      match splitOnColon rest with
      | [] => [[c]]
      | g :: gs => (c :: g) :: gs

/-- parts[1] guarded by len(parts) < 2: the second part of the split
line, when there is one. -/
def partAt1 : List (List Char) → Option (List Char)
  | _ :: x :: _ => some x
  | _ => none

/-- Server.handleDataConnection: split the DATA line on ":"; fewer than
two parts closes the socket; otherwise look the connection id (the
second part) up in pendingConns, and run the non-blocking send (select
with default): an absent entry or an occupied buffer closes the socket,
an empty buffer takes it. The entry itself is not removed here; the
waiting handler removes it. -/
def handleDataConnection (pending : List (String × SlotState)) (dataLine : List Char)
    (sock : Nat) : List (String × SlotState) × DeliverResult :=
  match partAt1 (splitOnColon dataLine) with
  | none => (pending, DeliverResult.closedBadFormat)
  | some cs =>
    let connId := String.mk cs
    match lookupPending pending connId with
    | none => (pending, DeliverResult.closedNoSlot connId)
    | some SlotState.empty =>
      (fillPending pending connId sock, DeliverResult.paired connId)
    | some (SlotState.full _) => (pending, DeliverResult.closedSlotFull connId)

/-! The per-external-connection handler (Tunnel.handleConnection). -/

/-- The observable steps of Tunnel.handleConnection, in program order:
write CONNECT on the agent socket, build the connection id from the
tunnel id and the nanosecond clock, insert the rendezvous slot into
pendingConns, write CONN_ID, select on the slot against the 10 s timer,
remove the slot, bridge. -/
inductive HandlerEvent
  | writeConnect
  | allocId
  | reserveSlot
  | writeConnId
  | waitData
  | removeSlot
  | bridge
  deriving DecidableEq

/-- What the select over the rendezvous slot produced: the agent's data
socket, or the 10-second timeout. -/
inductive Delivery
  | arrives (sock : Nat)
  | timeout
  deriving DecidableEq

/-- How the handler disposes of the external connection: bridged against
a data socket, recorded as error (logConnectionAttempt "error"), or
recorded as timeout (logConnectionAttempt "timeout"). -/
inductive ConnOutcome
  | bridged (dataSock : Nat)
  | errorRecord (msg : String)
  | timeoutRecord
  deriving DecidableEq

/-- Result of Tunnel.handleConnection: the pairing table as left behind,
the steps taken in order, and the disposition of the connection. -/
structure HandleConnResult where
  pending : List (String × SlotState)
  events : List HandlerEvent
  outcome : ConnOutcome
  deriving DecidableEq

/-- Tunnel.handleConnection, sequentialized for one external connection.
`connectOk` and `connIdOk` say whether the two writes on the agent socket
succeeded, `d` what the select produced. Program order in the source:
the CONNECT write comes FIRST; only then is the connection id built
(fmt.Sprintf of the tunnel id and UnixNano), the one-slot channel created
and registered, CONN_ID written, and the select run. -/
def handleConnection (t : TunnelState) (p : List (String × SlotState)) (nanos : Int)
    (connectOk connIdOk : Bool) (d : Delivery) : HandleConnResult :=
  if !connectOk then
    { pending := p, events := [HandlerEvent.writeConnect],
      outcome := ConnOutcome.errorRecord "Control connection error" }
  else
    let connId := t.id ++ "-" ++ toString nanos
    let p1 := (connId, SlotState.empty) :: p
    if !connIdOk then
      { pending := removePending p1 connId,
        events := [HandlerEvent.writeConnect, HandlerEvent.allocId,
                   HandlerEvent.reserveSlot, HandlerEvent.writeConnId,
                   HandlerEvent.removeSlot],
        outcome := ConnOutcome.errorRecord "Connection ID send error" }
    else
      match d with
      | Delivery.arrives sock =>
        { pending := removePending p1 connId,
          events := [HandlerEvent.writeConnect, HandlerEvent.allocId,
                     HandlerEvent.reserveSlot, HandlerEvent.writeConnId,
                     HandlerEvent.waitData, HandlerEvent.removeSlot,
                     HandlerEvent.bridge],
          outcome := ConnOutcome.bridged sock }
      | Delivery.timeout =>
        { pending := removePending p1 connId,
          events := [HandlerEvent.writeConnect, HandlerEvent.allocId,
                     HandlerEvent.reserveSlot, HandlerEvent.writeConnId,
                     HandlerEvent.waitData, HandlerEvent.removeSlot],
          outcome := ConnOutcome.timeoutRecord }

/-- Position of an event in a trace (List.indexOf). -/
def eventPos (tr : List HandlerEvent) (e : HandlerEvent) : Nat :=
  tr.indexOf e

/-- The ordering claimed by the specification for one external
connection, transcribed from its words: allocate the connection-id, then
reserve the pairing slot, then write CONNECT, then write CONN_ID, then
wait for the data socket, then bridge. (This definition follows the
claim, not the source; it is the property to be checked against
handleConnection.) -/
def specConnectionOrder (tr : List HandlerEvent) : Prop :=
  eventPos tr HandlerEvent.allocId < eventPos tr HandlerEvent.reserveSlot
    ∧ eventPos tr HandlerEvent.reserveSlot < eventPos tr HandlerEvent.writeConnect
    ∧ eventPos tr HandlerEvent.writeConnect < eventPos tr HandlerEvent.writeConnId
    ∧ eventPos tr HandlerEvent.writeConnId < eventPos tr HandlerEvent.waitData
    ∧ eventPos tr HandlerEvent.waitData < eventPos tr HandlerEvent.bridge

/-- The ordering the source actually implements: write CONNECT, then
allocate the connection-id, then reserve the slot, then write CONN_ID,
then wait, then bridge. -/
def codeConnectionOrder (tr : List HandlerEvent) : Prop :=
  eventPos tr HandlerEvent.writeConnect < eventPos tr HandlerEvent.allocId
    ∧ eventPos tr HandlerEvent.allocId < eventPos tr HandlerEvent.reserveSlot
    ∧ eventPos tr HandlerEvent.reserveSlot < eventPos tr HandlerEvent.writeConnId
    ∧ eventPos tr HandlerEvent.writeConnId < eventPos tr HandlerEvent.waitData
    ∧ eventPos tr HandlerEvent.waitData < eventPos tr HandlerEvent.bridge

/-! The bridge (Tunnel.bridgeConnectionsWithLogging). -/

/-- Result of one io.Copy half of the bridge: the bytes it copied and the
error it returned, if any. io.Copy never returns io.EOF, so the source
check err != nil && err != io.EOF is equivalent to err != nil. -/
structure CopyResult where
  bytes : Int
  copyErr : Option String
  deriving DecidableEq

/-- What bridgeConnectionsWithLogging commits to the store. -/
structure BridgeCommit where
  bytesReceived : Int
  bytesSent : Int
  status : String
  errorMessage : Option String
  secondHalfDone : Bool
  deriving DecidableEq

/-- Tunnel.bridgeConnectionsWithLogging, sequentialized. Two goroutines
run concurrently over a done channel of capacity 2: the receive half
copies dataConn to externalConn and then stores its count into
bytesReceived; the send half copies externalConn to dataConn and then
stores its count into bytesSent; each records its non-nil error into
bridgeErr after its copy ends. The main goroutine performs a SINGLE
receive on done — it proceeds as soon as ONE half has finished — and then
reads both counters and bridgeErr. `recvFirst` names which half finished
first; `otherDone` says whether the other half had ALSO finished (and
stored its results) by the time the main goroutine read the shared
variables; when it had not, that half's counter still holds its zero
initialization and its error is not yet visible. The commit status is
"error" when a visible error exists, else "closed". -/
def bridgeCommitOf (recvHalf sendHalf : CopyResult) (recvFirst otherDone : Bool) :
    BridgeCommit :=
  let recvVisible := recvFirst || otherDone
  let sendVisible := !recvFirst || otherDone
  let visibleErr :=
    if recvVisible && recvHalf.copyErr.isSome then recvHalf.copyErr
    else if sendVisible then sendHalf.copyErr
    else none
  { bytesReceived := if recvVisible then recvHalf.bytes else 0,
    bytesSent := if sendVisible then sendHalf.bytes else 0,
    status := if visibleErr.isSome then "error" else "closed",
    errorMessage := visibleErr,
    secondHalfDone := otherDone }

/-- The store writes at the end of bridgeConnectionsWithLogging (guarded
by t.SessionID != "" and connectionLogID != uuid.Nil in the source):
Service.UpdateConnectionActivity with the committed counters, then
Service.EndConnection with the committed status — which, through
Repository.EndConnectionSession, also marks the tunnel's own session row
'inactive'. -/
def bridgeFinishDb (db : DB) (sessionId logId : Option Nat) (c : BridgeCommit)
    (now : Int) : DB :=
  match sessionId, logId with
  | some sid, some lid =>
    let db1 := ServiceUpdateConnectionActivity db sid (some lid)
      c.bytesReceived c.bytesSent now
    ServiceEndConnection db1 sid (some lid) c.status c.errorMessage now
  | _, _ => db

/-! Control-connection framing (Server.handleControlConnection). -/

/-- Go unicode.IsSpace restricted to the ASCII characters that can occur
on the line-framed control channel. -/
def isSpaceChar (c : Char) : Bool :=
  c == ' ' || c == '\t' || c == '\n' || c == '\r'

/-- strings.TrimSpace over a byte list. -/
def trimSpaceL (l : List Char) : List Char :=
  ((l.dropWhile isSpaceChar).reverse.dropWhile isSpaceChar).reverse

/-- bufio.Reader.ReadString of the byte \n: the line up to and including
the first newline, with the remaining stream; `none` when the stream ends
before a newline arrives (the read returns an error). There is no length
bound of any kind: the reader grows its buffer as needed. -/
def readLine : List Char → Option (List Char × List Char)
  | [] => none
  | c :: rest =>
    if c == '\n' then some ([c], rest)
    else
      match readLine rest with
      | none => none
      | some (line, rem) => some (c :: line, rem)

/-- strings.HasPrefix over byte lists: the first argument begins with the
second. -/
def beginsWith : List Char → List Char → Bool
  | _, [] => true
  | [], _ :: _ => false
  | c :: cs, p :: ps => p == c && beginsWith cs ps

/-- The literal "DATA:" marker of a data connection. -/
def dataMarker : List Char := ['D', 'A', 'T', 'A', ':']

/-- Which branch Server.handleControlConnection takes for an inbound
control connection. -/
inductive ControlBranch
  | closedNoResponse
  | dataBranch (dataLine : List Char)
  | authBranch (token : List Char) (localPort : List Char)
  deriving DecidableEq

/-- The framing of Server.handleControlConnection: read the first line
(any read error closes the connection with no response), trim it; a
"DATA:" first line goes to handleDataConnection; anything else is a token
secret, and a second line — the reported local port — is read the same
way before authentication runs. -/
def handleControlFirst (s : List Char) : ControlBranch :=
  match readLine s with
  | none => ControlBranch.closedNoResponse
  | some (line, rest) =>
    let firstLine := trimSpaceL line
    if beginsWith firstLine dataMarker then ControlBranch.dataBranch firstLine
    else
      match readLine rest with
      | none => ControlBranch.closedNoResponse
      | some (line2, _) => ControlBranch.authBranch firstLine (trimSpaceL line2)

/-! The authentication step (server.go lines 245-254). -/

/-- Outcome of the authentication step of the control handler. -/
inductive AuthStepOutcome
  | failed
  | ok (tk : TokenRow) (pa : PortRow)
  deriving DecidableEq

/-- Observable result of the authentication step: the store as left
behind, the line written back (if any), and whether the connection was
closed. -/
structure AuthStepResult where
  db : DB
  response : Option String
  closed : Bool
  outcome : AuthStepOutcome
  deriving DecidableEq

/-- The authentication step of Server.handleControlConnection: run
Service.AuthenticateToken; on error write the fixed line
"ERROR:Invalid token or authentication failed\n" and close; on success
continue to tunnel lookup or creation. -/
def controlAuthStep (db : DB) (token : String) (now : Int) : AuthStepResult :=
  match ServiceAuthenticateToken db token now with
  | (none, db1) =>
    { db := db1, response := some "ERROR:Invalid token or authentication failed\n",
      closed := true, outcome := AuthStepOutcome.failed }
  | (some (tk, pa), db1) =>
    { db := db1, response := none, closed := false, outcome := AuthStepOutcome.ok tk pa }

/-! Startup restoration (Server.restoreActiveConnections). -/

/-- The stale threshold the server passes to CleanupStaleConnections at
startup: staleThreshold := 5 * time.Minute, in nanoseconds. -/
def serverStaleThreshold : Int := 5 * 60 * 1000000000

/-- Outcome of net.Listen on one restored port. -/
inductive BindOutcome
  | ok (listener : Nat)
  | fail (msg : String)
  deriving DecidableEq

/-- Append a session to the group of its server port, preserving the
order ports are first seen (one admissible order for the Go map). -/
def addToGroups (gs : List (Nat × List SessionRow)) (s : SessionRow) :
    List (Nat × List SessionRow) :=
  match gs with
  | [] => [(s.serverPort, [s])]
  | (p, ss) :: rest =>
    if p == s.serverPort then (p, ss ++ [s]) :: rest
    else (p, ss) :: addToGroups rest s

/-- Service.RestoreActiveSessions: the active sessions grouped by their
server port. -/
def groupByPort (sessions : List SessionRow) : List (Nat × List SessionRow) :=
  sessions.foldl addToGroups []

/-- The per-port loop of Server.restoreActiveConnections (its body over
one (port, sessions) group at a time). An empty group is skipped; a
failed GetSessionWithDetails lookup logs and continues; a failed bind
calls Service.EndConnection with the FIRST session's id, uuid.Nil as the
log id, status "error" and the bind message, then continues with the
remaining ports; a successful bind builds a restored tunnel and counts
it. `bind` gives the net.Listen outcome per port and `freshId` the
generated tunnel id per port. -/
def restoreLoop (db : DB) (groups : List (Nat × List SessionRow))
    (bind : Nat → BindOutcome) (freshId : Nat → String) (now : Int) :
    DB × Nat × List TunnelState :=
  match groups with
  | [] => (db, 0, [])
  | (_, sessions) :: rest =>
    match sessions with
    | [] => restoreLoop db rest bind freshId now
    | s :: _ =>
      match GetSessionWithDetails db s.id with
      | none => restoreLoop db rest bind freshId now
      | some (sd, tk, pa) =>
        match bind pa.port with
        | BindOutcome.fail msg =>
          let errorMsg := "Failed to restore listener: " ++ msg
          let db1 := ServiceEndConnection db s.id none "error" (some errorMsg) now
          restoreLoop db1 rest bind freshId now
        | BindOutcome.ok listener =>
          let t := createRestoredTunnelListener sd tk pa (freshId pa.port) listener
          let (db2, n, ts) := restoreLoop db rest bind freshId now
          (db2, n + 1, t :: ts)

/-- Result of the whole startup restoration. -/
structure RestoreResult where
  db : DB
  staleCount : Nat
  restoredCount : Nat
  tunnels : List TunnelState

/-- Server.restoreActiveConnections: run the stale sweep with the
5-minute threshold, query the still-active sessions grouped by port, and
run the restoration loop over the groups. -/
def restoreActiveConnections (db : DB) (bind : Nat → BindOutcome)
    (freshId : Nat → String) (now : Int) : RestoreResult :=
  let swept := ServiceCleanupStaleConnections db serverStaleThreshold now
  let groups := groupByPort (GetActiveSessions swept.1)
  let looped := restoreLoop swept.1 groups bind freshId now
  { db := looped.1, staleCount := swept.2,
    restoredCount := looped.2.1, tunnels := looped.2.2 }

/-! Data-model invariants stated by the specification. -/

/-- The PortAssignment invariant of the data model: every token owns a
port assignment (exactly one per Token, created together with the token
in one transaction by CreateTokenForTeam), and the assignment carries the
same owning team. -/
def portPerTokenInvariant (db : DB) : Prop :=
  ∀ tk ∈ db.tokens, ∃ pa ∈ db.ports, pa.tokenId = tk.id ∧ pa.teamId = tk.teamId

/-! Concrete fixtures used by the closed theorems below. -/

/-- A live team. -/
def exTeam : TeamRow := { id := "team1", deleted := false }

/-- An active, unexpired token of that team. -/
def exToken : TokenRow :=
  { id := 1, teamId := "team1", token := "tok_ok", isActive := true,
    expiresAt := none, lastUsedAt := none }

/-- The port assignment of that token: public port 12345. -/
def exPort : PortRow :=
  { id := 2, teamId := "team1", tokenId := 1, port := 12345, protocol := "tcp" }

/-- An active session of that token on port 12345. -/
def exSession : SessionRow :=
  { id := 42, teamId := "team1", tokenId := 1, portAssignId := 2,
    clientIP := "10.0.0.1", serverPort := 12345, protocol := "tcp",
    startedAt := 0, lastSeenAt := 10, status := "active" }

/-- A still-active connection log row belonging to that session. -/
def exLog : LogRow :=
  { id := 7, sessionId := 42, clientIP := "10.0.0.2", clientPort := 5555,
    serverPort := 12345, startedAt := 5, endedAt := none,
    bytesReceived := 0, bytesSent := 0, status := "active", errorMessage := none }

/-- A store with one team, one token, one port assignment, one active
session and one active connection log. -/
def exDb : DB :=
  { teams := [exTeam], tokens := [exToken], ports := [exPort],
    sessions := [exSession], logs := [exLog] }

/-- A tunnel with an attached agent socket (handle 3) on public port
12345. -/
def exAttachedTunnel : TunnelState :=
  { id := "t1", token := "tok_ok", teamId := "team1", tokenId := 1,
    portAssignId := 2, localPort := "5432", remotePort := "12345",
    client := some 3, listener := 99, sessionId := some 42,
    connectionLog := some 7, stopChanClosed := false,
    loops := [AcceptLoop.normalAccept] }

/-- The tunnel createRestoredTunnelListener builds for exSession. -/
def exRestoredTunnel : TunnelState :=
  createRestoredTunnelListener exSession exToken exPort "rt1" 99

/-- A second active session of the same token, sitting on port
assignment 3 / public port 23456: used to show restoration continuing
past a failed bind. -/
def exSessionB : SessionRow :=
  { id := 43, teamId := "team1", tokenId := 1, portAssignId := 3,
    clientIP := "10.0.0.1", serverPort := 23456, protocol := "tcp",
    startedAt := 0, lastSeenAt := 10, status := "active" }

/-- The port assignment behind exSessionB. -/
def exPortB : PortRow :=
  { id := 3, teamId := "team1", tokenId := 1, port := 23456, protocol := "tcp" }

/-- A store with two active sessions on two distinct public ports. -/
def exDbTwoPorts : DB :=
  { teams := [exTeam], tokens := [exToken], ports := [exPort, exPortB],
    sessions := [exSession, exSessionB], logs := [] }

/-- A bind function that fails on port 12345 and succeeds elsewhere. -/
def exBindFail12345 : Nat → BindOutcome := fun p =>
  if p == 12345 then BindOutcome.fail "listen tcp :12345: bind: address already in use"
  else BindOutcome.ok 77

/-- A stale active session (last seen at instant 0). -/
def exStaleSession : SessionRow :=
  { exSession with id := 100, lastSeenAt := 0 }

/-- A fresh active session (last seen at instant 900000000000). -/
def exFreshSession : SessionRow :=
  { exSession with id := 101, lastSeenAt := 900000000000 }

/-- A store holding one stale and one fresh active session. -/
def exStaleDb : DB :=
  { teams := [exTeam], tokens := [exToken], ports := [exPort],
    sessions := [exStaleSession, exFreshSession], logs := [] }

/-- A pairing table with an empty slot for "t1-1" and an occupied slot
for "t1-2". -/
def exPending : List (String × SlotState) :=
  [("t1-1", SlotState.empty), ("t1-2", SlotState.full 9)]

/-- The reported-local-port line "5432\n" of the control protocol. -/
def c5portLine : List Char := ['5', '4', '3', '2', '\n']

/-- A control stream whose first line is 513 bytes long including the
newline: 512 bytes of token followed by the newline, then the local-port
line. -/
def c5input513 : List Char := List.replicate 512 'a' ++ '\n' :: c5portLine

/-! Theorems. Helper lemmas come first, then one theorem per claim (with
its witness or counterexample where required). -/

/-- Claim C1. The claim says a Session flips from active to inactive only
on clean tunnel close, the startup stale sweep, or restoration failure,
and in particular that the tunnel's own session stays active while the
Tunnel is open, across every bridged external connection that completes.
The source violates it: bridgeConnectionsWithLogging ends every completed
bridge with Service.EndConnection on the tunnel's own SessionID, and
Repository.EndConnectionSession unconditionally writes status 'inactive'.
Here a single cleanly completed bridge (both halves done, 4 bytes each
way, committed status "closed") flips the tunnel's session 42 from
active to inactive even though the Tunnel is still open. -/
theorem c1_bridge_ends_tunnel_session :
    (exDb.sessions.map (fun s => (s.id, s.status))) = [(42, "active")]
    ∧ (bridgeCommitOf ⟨4, none⟩ ⟨4, none⟩ true true).status = "closed"
    ∧ ((bridgeFinishDb exDb (some 42) (some 7)
          (bridgeCommitOf ⟨4, none⟩ ⟨4, none⟩ true true) 60).sessions.map
        (fun s => (s.id, s.status))) = [(42, "inactive")] := by
  decide

/-- Claim C2. The claim says the connection record is ended with status
closed only after BOTH copy halves have completed, and that the committed
byte counts equal the bytes actually copied in each direction. The source
waits on the done channel ONCE and then reads both counters: in the
interleaving where the data-to-external half finished (4 bytes) but the
external-to-data half is still copying, the record is ended with status
"closed" while the second half is still running, and its direction is
committed as 0 bytes although that half actually copies 4. -/
theorem c2_commit_races_second_half :
    bridgeCommitOf ⟨4, none⟩ ⟨4, none⟩ true false
      = { bytesReceived := 4, bytesSent := 0, status := "closed",
          errorMessage := none, secondHalfDone := false }
    ∧ ((bridgeFinishDb exDb (some 42) (some 7)
          (bridgeCommitOf ⟨4, none⟩ ⟨4, none⟩ true false) 60).logs.map
        (fun l => (l.id, l.status, l.bytesSent, l.endedAt.isSome)))
      = [(7, "closed", 0, true)]
    ∧ (bridgeCommitOf ⟨4, none⟩ ⟨4, none⟩ true false).bytesSent ≠ (4 : Int) := by
  decide

/-- Claim C3, counterexample. The claim orders the steps of one external
connection as: allocate id, reserve slot, write CONNECT, write CONN_ID,
wait, bridge. On the successful path of Tunnel.handleConnection that
ordering is false: the CONNECT write comes before the id is allocated and
before the slot is reserved. -/
theorem c3_counterexample :
    ¬ specConnectionOrder
      (handleConnection exAttachedTunnel [] 1 true true (Delivery.arrives 7)).events := by
  unfold specConnectionOrder
  decide

/-- Claim C3, amended: for every external connection on the successful
path, the strict order is: write CONNECT, then allocate the
connection-id, then reserve the pairing slot, then write CONN_ID, then
wait for the data socket, then bridge. -/
theorem c3_code_order (t : TunnelState) (p : List (String × SlotState))
    (nanos : Int) (sock : Nat) :
    codeConnectionOrder
      (handleConnection t p nanos true true (Delivery.arrives sock)).events := by
  show codeConnectionOrder
    [HandlerEvent.writeConnect, HandlerEvent.allocId, HandlerEvent.reserveSlot,
     HandlerEvent.writeConnId, HandlerEvent.waitData, HandlerEvent.removeSlot,
     HandlerEvent.bridge]
  unfold codeConnectionOrder
  decide

/-- Claim C4. The claim says that once an agent reconnects to a restored
tunnel, every subsequent external connection is paired and bridged
normally and no longer receives the 503 restored-port reply. The source
violates it: reconnectClientToTunnel leaves the acceptRestoredConnections
loop of the restored tunnel running (the stop channel is deliberately not
closed) while handleTunnel adds a second accept loop on the same
listener, and the restored loop replies with the canned 503 message
without ever consulting the now-present agent socket. An external
connection the restored loop wins off the listener therefore still gets
the 503 reply. -/
theorem c4_restored_loop_still_replies_503 :
    (reconnectClientToTunnel exRestoredTunnel exDb 5 "5432" 80).tunnel.client = some 5
    ∧ AcceptLoop.restoredAccept
        ∈ (reconnectClientToTunnel exRestoredTunnel exDb 5 "5432" 80).tunnel.loops
    ∧ (reconnectClientToTunnel exRestoredTunnel exDb 5 "5432" 80).tunnel.stopChanClosed
        = false
    ∧ acceptLoopHandle AcceptLoop.restoredAccept
        (reconnectClientToTunnel exRestoredTunnel exDb 5 "5432" 80).tunnel
      = ExternalResponse.restoredPortMessage "12345"
    ∧ ExternalResponse.restoredPortMessage "12345" ≠ ExternalResponse.attachedPath := by
  decide

/-- Claim C7: replacing the agent socket of a tunnel that already has one
closes exactly the old agent socket, attaches the new one, and leaves the
rest of the Tunnel alone: no listener is closed, the listener handle is
the same (no re-bind), and the tunnel id, public port, token, session and
stop channel are unchanged; the new agent receives the SUCCESS line of
the unchanged tunnel id and port. -/
theorem c7_replace_agent_frame (t : TunnelState) (db : DB) (conn : Nat)
    (localPort : String) (now : Int) (old : Nat) (h : t.client = some old) :
    (reconnectClientToTunnel t db conn localPort now).closedSockets = [old]
    ∧ (reconnectClientToTunnel t db conn localPort now).closedListeners = []
    ∧ (reconnectClientToTunnel t db conn localPort now).tunnel.client = some conn
    ∧ (reconnectClientToTunnel t db conn localPort now).tunnel.listener = t.listener
    ∧ (reconnectClientToTunnel t db conn localPort now).tunnel.id = t.id
    ∧ (reconnectClientToTunnel t db conn localPort now).tunnel.remotePort = t.remotePort
    ∧ (reconnectClientToTunnel t db conn localPort now).tunnel.token = t.token
    ∧ (reconnectClientToTunnel t db conn localPort now).tunnel.sessionId = t.sessionId
    ∧ (reconnectClientToTunnel t db conn localPort now).tunnel.stopChanClosed
        = t.stopChanClosed
    ∧ (reconnectClientToTunnel t db conn localPort now).response
        = "SUCCESS:" ++ t.id ++ ":" ++ t.remotePort ++ "\n" := by
  simp [reconnectClientToTunnel, h]

/-- Witness for C7 at the concrete attached tunnel (old agent socket 3,
new agent socket 5). -/
theorem c7_witness :
    (reconnectClientToTunnel exAttachedTunnel exDb 5 "5432" 70).closedSockets = [3]
    ∧ (reconnectClientToTunnel exAttachedTunnel exDb 5 "5432" 70).closedListeners = []
    ∧ (reconnectClientToTunnel exAttachedTunnel exDb 5 "5432" 70).tunnel.client = some 5
    ∧ (reconnectClientToTunnel exAttachedTunnel exDb 5 "5432" 70).tunnel.listener
        = exAttachedTunnel.listener
    ∧ (reconnectClientToTunnel exAttachedTunnel exDb 5 "5432" 70).tunnel.id
        = exAttachedTunnel.id
    ∧ (reconnectClientToTunnel exAttachedTunnel exDb 5 "5432" 70).tunnel.remotePort
        = exAttachedTunnel.remotePort
    ∧ (reconnectClientToTunnel exAttachedTunnel exDb 5 "5432" 70).tunnel.token
        = exAttachedTunnel.token
    ∧ (reconnectClientToTunnel exAttachedTunnel exDb 5 "5432" 70).tunnel.sessionId
        = exAttachedTunnel.sessionId
    ∧ (reconnectClientToTunnel exAttachedTunnel exDb 5 "5432" 70).tunnel.stopChanClosed
        = exAttachedTunnel.stopChanClosed
    ∧ (reconnectClientToTunnel exAttachedTunnel exDb 5 "5432" 70).response
        = "SUCCESS:" ++ exAttachedTunnel.id ++ ":" ++ exAttachedTunnel.remotePort ++ "\n" :=
  c7_replace_agent_frame exAttachedTunnel exDb 5 "5432" 70 3 rfl

/-- Claim C6, counterexample. The claim says a failed bind during
restoration sets the session's stored status to the value error. At a
concrete store with one active session (id 42, port 12345) whose bind
fails, the session ends up with status "inactive", not "error" — the
"error" status and the bind message travel with a nil connection-log id
and are written nowhere — while restoration continues and restores the
second port 23456. -/
theorem c6_counterexample :
    ((restoreLoop exDbTwoPorts [(12345, [exSession]), (23456, [exSessionB])]
        exBindFail12345 (fun _ => "rt") 50).1.sessions.map
      (fun s => (s.id, s.status))) = [(42, "inactive"), (43, "active")]
    ∧ (restoreLoop exDbTwoPorts [(12345, [exSession]), (23456, [exSessionB])]
        exBindFail12345 (fun _ => "rt") 50).1.logs = exDbTwoPorts.logs
    ∧ (restoreLoop exDbTwoPorts [(12345, [exSession]), (23456, [exSessionB])]
        exBindFail12345 (fun _ => "rt") 50).2.1 = 1
    ∧ ((restoreLoop exDbTwoPorts [(12345, [exSession]), (23456, [exSessionB])]
        exBindFail12345 (fun _ => "rt") 50).2.2.map
      (fun t => t.remotePort)) = ["23456"]
    ∧ ("inactive" : String) ≠ "error" := by
  decide

/-- Claim C6, amended: when binding the public listener for a port group
fails during restoration, the first session of the group is marked
INACTIVE (Service.EndConnection is invoked with status "error" and the
bind message, but with a nil connection-log id, so neither reaches any
stored row and the connection logs are untouched), and restoration
continues with the remaining port groups against the updated store. -/
theorem c6_bind_failure_marks_inactive (db : DB) (port : Nat) (s : SessionRow)
    (ss : List SessionRow) (rest : List (Nat × List SessionRow))
    (bind : Nat → BindOutcome) (freshId : Nat → String) (now : Int)
    (sd : SessionRow) (tk : TokenRow) (pa : PortRow) (msg : String)
    (hdet : GetSessionWithDetails db s.id = some (sd, tk, pa))
    (hbind : bind pa.port = BindOutcome.fail msg)
    (hs : s ∈ db.sessions) :
    ({ s with status := "inactive", lastSeenAt := now }
        ∈ (ServiceEndConnection db s.id none "error"
            (some ("Failed to restore listener: " ++ msg)) now).sessions)
    ∧ (ServiceEndConnection db s.id none "error"
        (some ("Failed to restore listener: " ++ msg)) now).logs = db.logs
    ∧ restoreLoop db ((port, s :: ss) :: rest) bind freshId now
        = restoreLoop (ServiceEndConnection db s.id none "error"
            (some ("Failed to restore listener: " ++ msg)) now) rest bind freshId now := by
  refine ⟨?_, rfl, ?_⟩
  · have h := List.mem_map_of_mem
      (fun r => if r.id == s.id then { r with status := "inactive", lastSeenAt := now }
                else r) hs
    simpa [ServiceEndConnection, EndConnectionSession] using h
  · simp [restoreLoop, hdet, hbind]

/-- Witness for C6 at the concrete two-port store: the lookup for session
42 succeeds, bind on port 12345 fails, and session 42 is in the store. -/
theorem c6_witness :
    ({ exSession with status := "inactive", lastSeenAt := (50 : Int) }
        ∈ (ServiceEndConnection exDbTwoPorts exSession.id none "error"
            (some ("Failed to restore listener: "
              ++ "listen tcp :12345: bind: address already in use")) 50).sessions)
    ∧ (ServiceEndConnection exDbTwoPorts exSession.id none "error"
        (some ("Failed to restore listener: "
          ++ "listen tcp :12345: bind: address already in use")) 50).logs
        = exDbTwoPorts.logs
    ∧ restoreLoop exDbTwoPorts [(12345, [exSession]), (23456, [exSessionB])]
          exBindFail12345 (fun _ => "rt") 50
        = restoreLoop (ServiceEndConnection exDbTwoPorts exSession.id none "error"
            (some ("Failed to restore listener: "
              ++ "listen tcp :12345: bind: address already in use")) 50)
          [(23456, [exSessionB])] exBindFail12345 (fun _ => "rt") 50 :=
  c6_bind_failure_marks_inactive exDbTwoPorts 12345 exSession [] [(23456, [exSessionB])]
    exBindFail12345 (fun _ => "rt") 50 exSession exToken exPort
    "listen tcp :12345: bind: address already in use" (by decide) (by decide) (by decide)

/-- Claim C9: the stale sweep marks as inactive exactly the sessions with
status active and last-seen-at older than the threshold: every such
session reappears marked inactive, every other session is carried over
unchanged (and the other tables are untouched), the returned count is the
number of sessions marked, and the threshold the server passes at startup
is 5 minutes (300000000000 nanoseconds). -/
theorem c9_stale_sweep_exact (db : DB) (bind : Nat → BindOutcome)
    (freshId : Nat → String) (threshold now : Int) :
    (MarkStaleSessionsInactive db threshold now).2
        = (db.sessions.filter (fun s => staleSession threshold now s)).length
    ∧ (∀ s, s ∈ db.sessions → staleSession threshold now s = true →
        { s with status := "inactive", lastSeenAt := now }
          ∈ (MarkStaleSessionsInactive db threshold now).1.sessions)
    ∧ (∀ s, s ∈ db.sessions → staleSession threshold now s = false →
        s ∈ (MarkStaleSessionsInactive db threshold now).1.sessions)
    ∧ (MarkStaleSessionsInactive db threshold now).1.sessions.length
        = db.sessions.length
    ∧ (MarkStaleSessionsInactive db threshold now).1.teams = db.teams
    ∧ (MarkStaleSessionsInactive db threshold now).1.tokens = db.tokens
    ∧ (MarkStaleSessionsInactive db threshold now).1.ports = db.ports
    ∧ (MarkStaleSessionsInactive db threshold now).1.logs = db.logs
    ∧ (restoreActiveConnections db bind freshId now).staleCount
        = (db.sessions.filter (fun s => staleSession serverStaleThreshold now s)).length
    ∧ serverStaleThreshold = 300000000000 := by
  refine ⟨?_, ?_, ?_, ?_, rfl, rfl, rfl, rfl, ?_, by norm_num [serverStaleThreshold]⟩
  · simp [MarkStaleSessionsInactive, List.countP_eq_length_filter]
  · intro s hs hstale
    have h := List.mem_map_of_mem
      (fun r => if staleSession threshold now r then
          { r with status := "inactive", lastSeenAt := now } else r) hs
    simpa [MarkStaleSessionsInactive, hstale] using h
  · intro s hs hfresh
    have h := List.mem_map_of_mem
      (fun r => if staleSession threshold now r then
          { r with status := "inactive", lastSeenAt := now } else r) hs
    simpa [MarkStaleSessionsInactive, hfresh] using h
  · simp [MarkStaleSessionsInactive]
  · simp [restoreActiveConnections, ServiceCleanupStaleConnections,
      MarkStaleSessionsInactive, List.countP_eq_length_filter]

/-- Witness for C9 at a store with one stale session (id 100, last seen
at 0) and one fresh session (id 101), swept at instant 400000000000 with
the 5-minute threshold. -/
theorem c9_witness :
    (MarkStaleSessionsInactive exStaleDb serverStaleThreshold 400000000000).2
        = (exStaleDb.sessions.filter
            (fun s => staleSession serverStaleThreshold 400000000000 s)).length
    ∧ ({ exStaleSession with status := "inactive", lastSeenAt := (400000000000 : Int) }
        ∈ (MarkStaleSessionsInactive exStaleDb serverStaleThreshold 400000000000).1.sessions)
    ∧ exFreshSession
        ∈ (MarkStaleSessionsInactive exStaleDb serverStaleThreshold 400000000000).1.sessions := by
  obtain ⟨h1, h2, h3, _⟩ := c9_stale_sweep_exact exStaleDb (fun _ => BindOutcome.ok 0)
    (fun _ => "rt") serverStaleThreshold 400000000000
  exact ⟨h1, h2 exStaleSession (by decide) (by decide),
         h3 exFreshSession (by decide) (by decide)⟩

/-- If a pairing entry for an id exists, a successful non-blocking send
fills that entry, and a later lookup sees the delivered socket. -/
theorem lookupPending_fill (p : List (String × SlotState)) (id : String) (sock : Nat)
    (h : (lookupPending p id).isSome = true) :
    lookupPending (fillPending p id sock) id = some (SlotState.full sock) := by
  induction p with
  | nil => simp [lookupPending] at h
  | cons e rest ih =>
    cases he : (e.1 == id) with
    | true => simp [lookupPending, fillPending, he]
    | false =>
      have h2 : (lookupPending rest id).isSome = true := by
        simpa [lookupPending, he] using h
      simpa [lookupPending, fillPending, he] using ih h2

/-- Claim C10: handleDataConnection is a total step that never leaves the
control handler waiting — every call either hands the socket into the
one-slot buffer or closes it at once; in particular the socket is closed
when no pairing entry exists for the connection id and when the entry's
buffer is already occupied, and it is delivered into the buffer exactly
when the entry exists with an empty buffer. -/
theorem c10_deliver_never_blocks (pending : List (String × SlotState))
    (dataLine : List Char) (sock : Nat) :
    (socketClosedByDeliver (handleDataConnection pending dataLine sock).2 = true
      ∨ ∃ id, (handleDataConnection pending dataLine sock).2 = DeliverResult.paired id)
    ∧ (∀ cs, partAt1 (splitOnColon dataLine) = some cs →
        lookupPending pending (String.mk cs) = none →
        (handleDataConnection pending dataLine sock).2
          = DeliverResult.closedNoSlot (String.mk cs))
    ∧ (∀ cs s0, partAt1 (splitOnColon dataLine) = some cs →
        lookupPending pending (String.mk cs) = some (SlotState.full s0) →
        (handleDataConnection pending dataLine sock).2
          = DeliverResult.closedSlotFull (String.mk cs))
    ∧ (∀ cs, partAt1 (splitOnColon dataLine) = some cs →
        lookupPending pending (String.mk cs) = some SlotState.empty →
        (handleDataConnection pending dataLine sock).2
            = DeliverResult.paired (String.mk cs)
          ∧ lookupPending (handleDataConnection pending dataLine sock).1 (String.mk cs)
              = some (SlotState.full sock)) := by
  refine ⟨?_, ?_, ?_, ?_⟩
  · cases hp : partAt1 (splitOnColon dataLine) with
    | none => exact Or.inl (by simp [handleDataConnection, hp, socketClosedByDeliver])
    | some cs =>
      cases hl : lookupPending pending (String.mk cs) with
      | none => exact Or.inl (by simp [handleDataConnection, hp, hl, socketClosedByDeliver])
      | some slot =>
        cases slot with
        | empty =>
          exact Or.inr ⟨String.mk cs, by simp [handleDataConnection, hp, hl]⟩
        | full s0 =>
          exact Or.inl (by simp [handleDataConnection, hp, hl, socketClosedByDeliver])
  · intro cs hp hl
    simp [handleDataConnection, hp, hl]
  · intro cs s0 hp hl
    simp [handleDataConnection, hp, hl]
  · intro cs hp hl
    refine ⟨by simp [handleDataConnection, hp, hl], ?_⟩
    have hfill := lookupPending_fill pending (String.mk cs) sock (by simp [hl])
    simpa [handleDataConnection, hp, hl] using hfill

/-- Witness for C10 at the concrete table exPending and the line
"DATA:t1-1": the slot is empty, so the socket (handle 5) is delivered
into the buffer. -/
theorem c10_witness :
    (handleDataConnection exPending
        ['D', 'A', 'T', 'A', ':', 't', '1', '-', '1'] 5).2
      = DeliverResult.paired (String.mk ['t', '1', '-', '1'])
    ∧ lookupPending (handleDataConnection exPending
        ['D', 'A', 'T', 'A', ':', 't', '1', '-', '1'] 5).1
        (String.mk ['t', '1', '-', '1'])
      = some (SlotState.full 5) :=
  (c10_deliver_never_blocks exPending
      ['D', 'A', 'T', 'A', ':', 't', '1', '-', '1'] 5).2.2.2
    ['t', '1', '-', '1'] (by decide) (by decide)

/-- Under the PortAssignment invariant of the data model, a token that
the token lookup finds always has a findable port assignment, also after
the last-used update has been written. -/
theorem port_lookup_of_inv (db : DB) (tk : TokenRow) (token : String) (now : Int)
    (hinv : portPerTokenInvariant db)
    (hfind : GetTeamTokenByToken db token now = some tk) :
    ∃ pa, GetPortAssignmentByToken (UpdateTokenLastUsed db tk.id now) tk.id = some pa := by
  unfold GetTeamTokenByToken at hfind
  have hmem : tk ∈ db.tokens := List.mem_of_find?_eq_some hfind
  have hpred := List.find?_some hfind
  simp only [Bool.and_eq_true] at hpred
  have hlive : tokenLive db now tk = true := hpred.2
  have hteam : db.teams.any (fun tm => tm.id == tk.teamId && !tm.deleted) = true := by
    simp only [tokenLive, Bool.and_eq_true] at hlive
    exact hlive.2
  obtain ⟨pa, hpaMem, hptok, hpteam⟩ := hinv tk hmem
  have hq : ∃ p, p ∈ (UpdateTokenLastUsed db tk.id now).ports
      ∧ (p.tokenId == tk.id
          && (UpdateTokenLastUsed db tk.id now).teams.any
              (fun tm => tm.id == p.teamId && !tm.deleted)
          && (UpdateTokenLastUsed db tk.id now).tokens.any
              (fun x => x.id == p.tokenId)) = true := by
    refine ⟨pa, hpaMem, ?_⟩
    have htok2 : ∃ x ∈ (UpdateTokenLastUsed db tk.id now).tokens,
        (x.id == pa.tokenId) = true := by
      refine ⟨if tk.id == tk.id then { tk with lastUsedAt := some now } else tk, ?_, ?_⟩
      · exact List.mem_map_of_mem
          (fun t => if t.id == tk.id then { t with lastUsedAt := some now } else t) hmem
      · simp [hptok]
    simp only [Bool.and_eq_true, beq_iff_eq]
    refine ⟨⟨hptok, ?_⟩, ?_⟩
    · show db.teams.any (fun tm => tm.id == pa.teamId && !tm.deleted) = true
      rw [hpteam]
      exact hteam
    · exact List.any_eq_true.mpr htok2
  have : ((UpdateTokenLastUsed db tk.id now).ports.find? (fun p =>
      p.tokenId == tk.id
        && (UpdateTokenLastUsed db tk.id now).teams.any
            (fun tm => tm.id == p.teamId && !tm.deleted)
        && (UpdateTokenLastUsed db tk.id now).tokens.any
            (fun x => x.id == p.tokenId))).isSome = true := by
    rw [List.find?_isSome]
    obtain ⟨p, hp1, hp2⟩ := hq
    exact ⟨p, hp1, hp2⟩
  obtain ⟨pa2, hpa2⟩ := Option.isSome_iff_exists.mp this
  exact ⟨pa2, hpa2⟩

/-- Claim C8: under the data-model invariant that every token owns a port
assignment, when the authentication step of the control handler fails it
writes exactly the line "ERROR:Invalid token or authentication failed"
with a newline, closes the connection, and leaves the store untouched: no
Session is created and no Token or PortAssignment row is modified. -/
theorem c8_auth_failure_no_state_change (db : DB) (token : String) (now : Int)
    (hinv : portPerTokenInvariant db)
    (hfail : (controlAuthStep db token now).outcome = AuthStepOutcome.failed) :
    (controlAuthStep db token now).response
        = some "ERROR:Invalid token or authentication failed\n"
    ∧ (controlAuthStep db token now).closed = true
    ∧ (controlAuthStep db token now).db = db := by
  cases hg : GetTeamTokenByToken db token now with
  | none =>
    refine ⟨?_, ?_, ?_⟩ <;>
      simp [controlAuthStep, ServiceAuthenticateToken, hg]
  | some tk =>
    exfalso
    obtain ⟨pa, hpa⟩ := port_lookup_of_inv db tk token now hinv hg
    simp [controlAuthStep, ServiceAuthenticateToken, hg, hpa] at hfail

/-- Witness for C8 at the concrete store exDb (which satisfies the
invariant) and the unknown token "tok_bad". -/
theorem c8_witness :
    (controlAuthStep exDb "tok_bad" 50).response
        = some "ERROR:Invalid token or authentication failed\n"
    ∧ (controlAuthStep exDb "tok_bad" 50).closed = true
    ∧ (controlAuthStep exDb "tok_bad" 50).db = exDb :=
  c8_auth_failure_no_state_change exDb "tok_bad" 50
    (by unfold portPerTokenInvariant; decide) (by decide)

/-- Reading a line from a stream that carries a newline-free chunk, the
newline, and a remainder yields exactly that chunk with its newline, and
leaves the remainder — whatever the chunk's length. -/
theorem readLine_append (l r : List Char) (h : '\n' ∉ l) :
    readLine (l ++ '\n' :: r) = some (l ++ ['\n'], r) := by
  induction l with
  | nil => simp [readLine]
  | cons c cs ih =>
    have hc : ¬ c = '\n' := fun he => h (he ▸ List.mem_cons_self c cs)
    have hcs : '\n' ∉ cs := fun hm => h (List.mem_cons_of_mem c hm)
    simp [readLine, hc, ih hcs]

/-- dropWhile of the space test leaves a list with no space characters
untouched. -/
theorem dropWhile_no_space (l : List Char) (h : ∀ c ∈ l, isSpaceChar c = false) :
    l.dropWhile isSpaceChar = l := by
  cases l with
  | nil => rfl
  | cons c cs => simp [List.dropWhile_cons, h c (List.mem_cons_self c cs)]

/-- TrimSpace of a space-free chunk followed by its newline is the chunk
itself. -/
theorem trimSpaceL_append_newline (l : List Char)
    (h : ∀ c ∈ l, isSpaceChar c = false) :
    trimSpaceL (l ++ ['\n']) = l := by
  cases l with
  | nil => decide
  | cons c cs =>
    have hrev : ∀ x ∈ (c :: cs).reverse, isSpaceChar x = false := by
      intro x hx
      exact h x (List.mem_reverse.mp hx)
    have h1 : ((c :: cs) ++ ['\n']).dropWhile isSpaceChar = (c :: cs) ++ ['\n'] := by
      simp [List.dropWhile_cons, h c (List.mem_cons_self c cs)]
    unfold trimSpaceL
    rw [h1, List.reverse_append]
    show (List.dropWhile isSpaceChar ('\n' :: (c :: cs).reverse)).reverse = c :: cs
    rw [List.dropWhile_cons]
    simp only [show isSpaceChar '\n' = true from rfl, if_true]
    rw [dropWhile_no_space _ hrev, List.reverse_reverse]

/-- A run of token bytes never begins with the "DATA:" marker. -/
theorem beginsWith_replicate_a (n : Nat) :
    beginsWith (List.replicate n 'a') dataMarker = false := by
  cases n with
  | zero => decide
  | succ m =>
    simp [List.replicate_succ, beginsWith, dataMarker,
      show ('D' == 'a') = false from by decide]

/-- Claim C5, amended: the broker enforces no maximum line length. An
auth first line of n token bytes plus the newline — any n, in particular
511 (a 512-byte line, accepted as the claim says) and 512 (a 513-byte
line, which the claim says is closed with no response but which is
processed identically) — is read in full and dispatched to the token
branch with the following local-port line; the handler closes without a
response only when the stream ends before a needed newline. -/
theorem c5_no_length_limit :
    (∀ n : Nat,
      handleControlFirst (List.replicate n 'a' ++ '\n' :: c5portLine)
        = ControlBranch.authBranch (List.replicate n 'a') ['5', '4', '3', '2'])
    ∧ (∀ s : List Char, handleControlFirst s = ControlBranch.closedNoResponse →
        readLine s = none
          ∨ ∃ line rest, readLine s = some (line, rest) ∧ readLine rest = none) := by
  constructor
  · intro n
    have hnn : '\n' ∉ List.replicate n 'a' := by
      intro hm
      exact absurd (List.mem_replicate.mp hm).2 (by decide)
    have h1 := readLine_append (List.replicate n 'a') c5portLine hnn
    have h2 : trimSpaceL (List.replicate n 'a' ++ ['\n']) = List.replicate n 'a' := by
      apply trimSpaceL_append_newline
      intro c hc
      rw [(List.mem_replicate.mp hc).2]
      decide
    have h3 := beginsWith_replicate_a n
    have h4 : readLine c5portLine = some (['5', '4', '3', '2', '\n'], []) := rfl
    have h5 : trimSpaceL ['5', '4', '3', '2', '\n'] = ['5', '4', '3', '2'] := rfl
    simp [handleControlFirst, h1, h2, h3, h4, h5]
  · intro s hs
    cases h1 : readLine s with
    | none => exact Or.inl rfl
    | some pr =>
      obtain ⟨line, rest⟩ := pr
      cases h2 : readLine rest with
      | none => exact Or.inr ⟨line, rest, rfl, h2⟩
      | some pr2 =>
        exfalso
        obtain ⟨l2, r2⟩ := pr2
        by_cases hd : beginsWith (trimSpaceL line) dataMarker = true
        · simp [handleControlFirst, h1, hd] at hs
        · simp [handleControlFirst, h1, h2, hd] at hs

/-- Witness for C5 at the boundary the claim names: a 512-byte auth line
(511 token bytes plus the newline) is accepted and processed. -/
theorem c5_witness :
    handleControlFirst (List.replicate 511 'a' ++ '\n' :: c5portLine)
      = ControlBranch.authBranch (List.replicate 511 'a') ['5', '4', '3', '2'] :=
  c5_no_length_limit.1 511

set_option maxRecDepth 8000 in
/-- Claim C5, counterexample. The claim says a line longer than 512 bytes
causes the broker to close the connection immediately with no response.
On a first line of 513 bytes (512 token bytes plus the newline) the
handler does not close: it reads the line in full and proceeds to the
token branch exactly as for a short line. -/
theorem c5_counterexample :
    handleControlFirst c5input513
      = ControlBranch.authBranch (List.replicate 512 'a') ['5', '4', '3', '2']
    ∧ handleControlFirst c5input513 ≠ ControlBranch.closedNoResponse
    ∧ (List.replicate 512 'a' ++ ['\n']).length = 513 := by
  have hnn : '\n' ∉ List.replicate 512 'a' := by
    intro hm
    exact absurd (List.mem_replicate.mp hm).2 (by decide)
  have h1 := readLine_append (List.replicate 512 'a') c5portLine hnn
  have h2 : trimSpaceL (List.replicate 512 'a' ++ ['\n']) = List.replicate 512 'a' := by
    apply trimSpaceL_append_newline
    intro c hc
    rw [(List.mem_replicate.mp hc).2]
    decide
  have h3 := beginsWith_replicate_a 512
  have h4 : readLine c5portLine = some (['5', '4', '3', '2', '\n'], []) := rfl
  have hmain : handleControlFirst c5input513
      = ControlBranch.authBranch (List.replicate 512 'a') ['5', '4', '3', '2'] := by
    show handleControlFirst (List.replicate 512 'a' ++ '\n' :: c5portLine) = _
    simp only [handleControlFirst, h1, h2, h3, h4, Bool.false_eq_true, if_false]
    rfl
  refine ⟨hmain, ?_, ?_⟩
  · rw [hmain]
    exact fun hEq => ControlBranch.noConfusion hEq
  · simp only [List.length_append, List.length_replicate, List.length_cons,
      List.length_nil]

end RabbitGo
